import Mathlib

/-!
Verification development for the MATCH model core: the load-zone power
balance (`match_model/balancing/load_zones.py`), the dynamic component
registries, and the financial engine (`match_model/financials.py`).

The Python code builds a Pyomo model; here the relevant parts are shallowly
embedded: parameters and expressions become Lean functions over exact
rational arithmetic, the string-keyed dynamic component lists become lists
of names resolved through explicit environments (the counterpart of
`getattr(m, name)`), and Python's faulting division is made explicit as an
`Option`-valued checked division.  Exponents (`period_length_years`,
`dollar_year - base_financial_year`) are specialised to integers so that
the arithmetic is exact and computable.
-/

namespace MatchModel

/-- Timescale data supplied by the external `match_model.timescales`
collaborator: periods, timepoints, their grouping and weights. -/
structure Timescale where
  PERIODS : List String
  TIMEPOINTS : List String
  TPS_IN_PERIOD : String → List String
  tp_weight : String → ℚ
  tp_weight_in_year : String → ℚ
  tp_period : String → String
  period_length_years : String → ℤ

/-- The three scalar parameters of `financials.define_components`
(`financials.py` lines 185-187). -/
structure Financials where
  base_financial_year : ℤ
  dollar_year : ℤ
  discount_rate : ℚ

/-- `financials.py` lines 20-28: present value of an annuity-due stream of
length `t` at discount rate `dr`:
`return t if dr == 0 else (1 - (1 + dr) ** -t) / dr * (1 + dr)`. -/
def uniform_series_to_present_value (dr : ℚ) (t : ℤ) : ℚ :=
  if dr = 0 then (t : ℚ) else (1 - (1 + dr) ^ (-t)) / dr * (1 + dr)

/-- `financials.py` lines 31-39: `return (1 + dr) ** -t`. -/
def future_to_present_value (dr : ℚ) (t : ℤ) : ℚ :=
  (1 + dr) ^ (-t)

/-- `financials.py` lines 42-55: `return (1 + ir) ** t`. -/
def present_to_future_value (ir : ℚ) (t : ℤ) : ℚ :=
  (1 + ir) ^ t

/-- Python's `/`, which raises `ZeroDivisionError` on a zero denominator,
made explicit: `none` models the fault. -/
def qdiv_checked (a b : ℚ) : Option ℚ :=
  if b = 0 then none else some (a / b)

/-- `uniform_series_to_present_value` with its one division routed through
`qdiv_checked`, so that a `ZeroDivisionError` fault would surface as
`none`.  The `dr == 0` case takes the explicit first branch and performs
no division at all. -/
def uniform_series_to_present_value_checked (dr : ℚ) (t : ℤ) : Option ℚ :=
  if dr = 0 then some (t : ℚ)
  else (qdiv_checked (1 - (1 + dr) ^ (-t)) dr).map (fun x => x * (1 + dr))

/-- `financials.py` lines 189-198: per-period discount factor
`uniform_series_to_present_value(m.discount_rate, m.period_length_years[p])
* future_to_present_value(m.discount_rate, m.dollar_year - m.base_financial_year)`. -/
def bring_annual_costs_to_base_year (ts : Timescale) (fin : Financials)
    (p : String) : ℚ :=
  uniform_series_to_present_value fin.discount_rate (ts.period_length_years p)
    * future_to_present_value fin.discount_rate
        (fin.dollar_year - fin.base_financial_year)

/-- `financials.py` lines 199-205: per-timepoint discount factor
`m.bring_annual_costs_to_base_year[m.tp_period[t]] * m.tp_weight_in_year[t]`. -/
def bring_timepoint_costs_to_base_year (ts : Timescale) (fin : Financials)
    (t : String) : ℚ :=
  bring_annual_costs_to_base_year ts fin (ts.tp_period t) * ts.tp_weight_in_year t

/-- The two dynamic cost-component lists of
`financials.define_dynamic_lists` (`financials.py` lines 81-82). -/
structure CostLists where
  Cost_Components_Per_TP : List String
  Cost_Components_Per_Period : List String

/-- `financials.py` lines 235-239: `calc_tp_costs_in_period(m, t)` sums
`getattr(m, tp_cost)[t] * m.tp_weight_in_year[t]` over
`m.Cost_Components_Per_TP`.  `tpComp` plays the role of
`getattr`: it resolves a component name to its timepoint-indexed value. -/
def calc_tp_costs_in_period (cl : CostLists) (tpComp : String → String → ℚ)
    (ts : Timescale) (t : String) : ℚ :=
  (cl.Cost_Components_Per_TP.map (fun c => tpComp c t * ts.tp_weight_in_year t)).sum

/-- `financials.py` lines 245-248: `calc_annual_costs_in_period(m, p)` sums
`getattr(m, annual_cost)[p]` over `m.Cost_Components_Per_Period`. -/
def calc_annual_costs_in_period (cl : CostLists) (annComp : String → String → ℚ)
    (p : String) : ℚ :=
  (cl.Cost_Components_Per_Period.map (fun c => annComp c p)).sum

/-- `financials.py` lines 250-260: per-period system cost
`(calc_annual_costs_in_period(m, p)
 + sum(calc_tp_costs_in_period(m, t) for t in m.TPS_IN_PERIOD[p]))
* m.bring_annual_costs_to_base_year[p]`. -/
def calc_sys_costs_per_period (cl : CostLists) (tpComp annComp : String → String → ℚ)
    (ts : Timescale) (fin : Financials) (p : String) : ℚ :=
  (calc_annual_costs_in_period cl annComp p
      + ((ts.TPS_IN_PERIOD p).map (calc_tp_costs_in_period cl tpComp ts)).sum)
    * bring_annual_costs_to_base_year ts fin p

/-- `financials.py` line 262: `SystemCostPerPeriod` expression. -/
def SystemCostPerPeriod (cl : CostLists) (tpComp annComp : String → String → ℚ)
    (ts : Timescale) (fin : Financials) (p : String) : ℚ :=
  calc_sys_costs_per_period cl tpComp annComp ts fin p

/-- `financials.py` lines 266-268:
`SystemCost = sum(m.SystemCostPerPeriod[p] for p in m.PERIODS)`. -/
def SystemCost (cl : CostLists) (tpComp annComp : String → String → ℚ)
    (ts : Timescale) (fin : Financials) : ℚ :=
  (ts.PERIODS.map (SystemCostPerPeriod cl tpComp annComp ts fin)).sum

/-- The sense of a Pyomo `Objective`. -/
inductive ObjSense where
  | minimize
  | maximize
deriving DecidableEq

/-- A Pyomo `Objective`, shallowly: the value of its rule expression
together with its optimisation sense. -/
structure Objective where
  expr : ℚ
  sense : ObjSense

/-- `financials.py` line 269:
`Objective(rule=lambda m: m.SystemCost, sense=minimize)`. -/
def Minimize_System_Cost (cl : CostLists) (tpComp annComp : String → String → ℚ)
    (ts : Timescale) (fin : Financials) : Objective :=
  { expr := SystemCost cl tpComp annComp ts fin, sense := ObjSense.minimize }

/-- The two dynamic power-balance lists of
`load_zones.define_dynamic_lists` (`load_zones.py` lines 29-30). -/
structure PowerLists where
  Zone_Power_Injections : List String
  Zone_Power_Withdrawals : List String

/-- `load_zones.py` lines 66-70: `ZONE_TIMEPOINTS` is the cross product
`m.LOAD_ZONES * m.TIMEPOINTS`. -/
def ZONE_TIMEPOINTS (LOAD_ZONES : List String) (ts : Timescale) :
    List (String × String) :=
  LOAD_ZONES.flatMap (fun z => ts.TIMEPOINTS.map (fun t => (z, t)))

/-- `load_zones.py` lines 103-111: the `Zone_Energy_Balance` constraint
emitted at `(z, t)`:
`sum(getattr(m, c)[z, t] for c in m.Zone_Power_Injections)
 == sum(getattr(m, c)[z, t] for c in m.Zone_Power_Withdrawals)`.
`comp` plays the role of `getattr`, resolving a component name to its
(zone, timepoint)-indexed value. -/
def Zone_Energy_Balance (pl : PowerLists) (comp : String → String → String → ℚ)
    (z t : String) : Prop :=
  (pl.Zone_Power_Injections.map (fun c => comp c z t)).sum
    = (pl.Zone_Power_Withdrawals.map (fun c => comp c z t)).sum

/-- `load_zones.py` lines 78-85: derived parameter
`zone_total_demand_in_period_mwh[z, p]
 = sum(m.zone_demand_mw[z, t] * m.tp_weight[t] for t in m.TPS_IN_PERIOD[p])`. -/
def zone_total_demand_in_period_mwh (zone_demand_mw : String → String → ℚ)
    (ts : Timescale) (z p : String) : ℚ :=
  ((ts.TPS_IN_PERIOD p).map (fun t => zone_demand_mw z t * ts.tp_weight t)).sum

/-- The registries in the code are the plain Python lists created by
`define_dynamic_lists` (`financials.py` lines 81-82, `load_zones.py`
lines 29-30), and registration is a bare `list.append` (e.g.
`load_zones.py` lines 74-76): a total operation with no freeze state and
no error path of any kind. -/
def list_register (entries : List String) (name : String) : List String :=
  entries ++ [name]

/-- The error raised when a mandatory parameter has no value. -/
inductive DataError where
  | MissingDataError
deriving DecidableEq

/-- Modelled from the spec: `min_data_check` (defined in `utilities.py`,
outside `src/`) registers a build check that fails with `MissingDataError`
when any of the named mandatory parameters has no value; `present` tells
which parameters have been given a value. -/
def min_data_check (present : String → Bool) (names : List String) :
    Except DataError Unit :=
  if names.all present then Except.ok () else Except.error DataError.MissingDataError

/-- `financials.py` line 188: the check actually installed by
`define_components` is
`mod.min_data_check("base_financial_year", "discount_rate")`. -/
def financials_min_data_check (present : String → Bool) : Except DataError Unit :=
  min_data_check present ["base_financial_year", "discount_rate"]

/-- The two candidate withdrawal destinations seen by
`load_zones.define_components`: the optional distributed-bus list (absent
when the `local_td` module did not define the attribute, i.e. `none`) and
the central-bus list. -/
structure WithdrawalTargets where
  Distributed_Power_Withdrawals : Option (List String)
  Zone_Power_Withdrawals : List String

/-- `load_zones.py` lines 73-76:
`try: mod.Distributed_Power_Withdrawals.append("zone_demand_mw")
 except AttributeError: mod.Zone_Power_Withdrawals.append("zone_demand_mw")`.
The absent attribute (which raises `AttributeError` at the probe site) is
the `none` branch; both branches are ordinary total code, so the function
never propagates a fault. -/
def register_zone_demand (m : WithdrawalTargets) : WithdrawalTargets :=
  match m.Distributed_Power_Withdrawals with
  | some l => { m with Distributed_Power_Withdrawals := some (l ++ ["zone_demand_mw"]) }
  | none => { m with Zone_Power_Withdrawals := m.Zone_Power_Withdrawals ++ ["zone_demand_mw"] }

/-- How many registrations of `name` the distributed-bus list holds
(zero when the list is absent). -/
def WithdrawalTargets.distCount (m : WithdrawalTargets) (name : String) : ℕ :=
  (m.Distributed_Power_Withdrawals.getD []).count name

/-- How many registrations of `name` the central-bus list holds. -/
def WithdrawalTargets.centralCount (m : WithdrawalTargets) (name : String) : ℕ :=
  m.Zone_Power_Withdrawals.count name

/-- `financials.py` post_solve lines 300-301: the denominator of
`EnergyCostReal_per_MWh`, `sum(m.zone_total_demand_in_period_mwh[z, p] for
z in m.LOAD_ZONES)`. -/
def total_zone_demand_in_period (LOAD_ZONES : List String)
    (zone_demand_mw : String → String → ℚ) (ts : Timescale) (p : String) : ℚ :=
  (LOAD_ZONES.map (fun z => zone_total_demand_in_period_mwh zone_demand_mw ts z p)).sum

/-- `financials.py` post_solve lines 298-302: the exported column
`EnergyCostReal_per_MWh = SystemCostPerPeriod[p]
 / bring_annual_costs_to_base_year[p]
 / sum(zone_total_demand_in_period_mwh[z, p] for z in LOAD_ZONES)`,
with Python's faulting division routed through `qdiv_checked`: the code
has no guard on either denominator, and a zero denominator surfaces as
`none` (a `ZeroDivisionError`). -/
def EnergyCostReal_per_MWh (cl : CostLists) (tpComp annComp : String → String → ℚ)
    (ts : Timescale) (fin : Financials) (LOAD_ZONES : List String)
    (zone_demand_mw : String → String → ℚ) (p : String) : Option ℚ :=
  (qdiv_checked (SystemCostPerPeriod cl tpComp annComp ts fin p)
      (bring_annual_costs_to_base_year ts fin p)).bind
    (fun x => qdiv_checked x (total_zone_demand_in_period LOAD_ZONES zone_demand_mw ts p))

/-- The spec's worked example instance: one period `P1` of one year, one
timepoint `T1` of weight 8760 hours. -/
def exampleTimescale : Timescale where
  PERIODS := ["P1"]
  TIMEPOINTS := ["T1"]
  TPS_IN_PERIOD := fun _ => ["T1"]
  tp_weight := fun _ => 8760
  tp_weight_in_year := fun _ => 8760
  tp_period := fun _ => "P1"
  period_length_years := fun _ => 1

/-- The spec's worked example financial inputs:
`base_financial_year = dollar_year = 2020`, `discount_rate = 0`. -/
def exampleFinancials : Financials where
  base_financial_year := 2020
  dollar_year := 2020
  discount_rate := 0

/-- The spec's worked example demand: `zone_demand_mw[Z1, T1] = 100`. -/
def exampleDemand : String → String → ℚ := fun _ _ => 100

/-- An all-zero demand table, permitted by the `NonNegativeReals` domain of
`zone_demand_mw` (`load_zones.py` line 71). -/
def zeroDemand : String → String → ℚ := fun _ _ => 0

/-- An empty pair of cost-component registries (no module registered any
cost yet), as created by `define_dynamic_lists`. -/
def emptyCostLists : CostLists where
  Cost_Components_Per_TP := []
  Cost_Components_Per_Period := []

/-- A component environment resolving every name to zero. -/
def zeroComp : String → String → ℚ := fun _ _ => 0

/-- A (zone, timepoint)-indexed component environment resolving every
name to one, used to make registry contents visible in constraint sums. -/
def onePowerComp : String → String → String → ℚ := fun _ _ _ => 1

/-- C1: for every zone `z` and timepoint `t`, the `Zone_Energy_Balance`
constraint is emitted exactly over the cross product `ZONE_TIMEPOINTS`,
and at `(z, t)` it is the equality between the sum of every registered
power-injection component evaluated at `(z, t)` and the sum of every
registered power-withdrawal component evaluated at `(z, t)`. -/
theorem zone_energy_balance_constraint (LOAD_ZONES : List String) (ts : Timescale)
    (pl : PowerLists) (comp : String → String → String → ℚ) (z t : String) :
    ((z, t) ∈ ZONE_TIMEPOINTS LOAD_ZONES ts ↔ z ∈ LOAD_ZONES ∧ t ∈ ts.TIMEPOINTS)
    ∧ (Zone_Energy_Balance pl comp z t ↔
        (pl.Zone_Power_Injections.map (fun c => comp c z t)).sum
          = (pl.Zone_Power_Withdrawals.map (fun c => comp c z t)).sum) := by
  constructor
  · simp only [ZONE_TIMEPOINTS, List.mem_flatMap, List.mem_map, Prod.mk.injEq]
    constructor
    · rintro ⟨a, ha, b, hb, hz, ht⟩
      exact ⟨hz ▸ ha, ht ▸ hb⟩
    · rintro ⟨hz, ht⟩
      exact ⟨z, hz, t, ht, rfl, rfl⟩
  · exact Iff.rfl

/-- C2: `SystemCostPerPeriod[p]` is `(annual_costs(p) + tp_costs(p)) *
bring_annual_costs_to_base_year[p]`, where `tp_costs(p)` sums
`c[t] * tp_weight_in_year[t]` over every timepoint `t` of the period and
every registered per-timepoint cost component `c`, and `annual_costs(p)`
sums `c[p]` over every registered per-period cost component; `SystemCost`
is exactly the sum of `SystemCostPerPeriod` over all periods; and the
objective minimises `SystemCost`. -/
theorem system_cost_structure (cl : CostLists) (tpComp annComp : String → String → ℚ)
    (ts : Timescale) (fin : Financials) (p : String) :
    SystemCostPerPeriod cl tpComp annComp ts fin p
      = ((cl.Cost_Components_Per_Period.map (fun c => annComp c p)).sum
          + ((ts.TPS_IN_PERIOD p).map (fun t =>
              (cl.Cost_Components_Per_TP.map
                (fun c => tpComp c t * ts.tp_weight_in_year t)).sum)).sum)
        * bring_annual_costs_to_base_year ts fin p
    ∧ SystemCost cl tpComp annComp ts fin
      = (ts.PERIODS.map (fun q => SystemCostPerPeriod cl tpComp annComp ts fin q)).sum
    ∧ (Minimize_System_Cost cl tpComp annComp ts fin).sense = ObjSense.minimize
    ∧ (Minimize_System_Cost cl tpComp annComp ts fin).expr
        = SystemCost cl tpComp annComp ts fin :=
  ⟨rfl, rfl, rfl, rfl⟩

/-- C3: `bring_annual_costs_to_base_year[p]` is the product of the
annuity-due present-value factor over the period length and the
future-to-present factor over `dollar_year - base_financial_year`, and
`bring_timepoint_costs_to_base_year[t]` is the period factor of `t`'s
period times `tp_weight_in_year[t]`. -/
theorem bring_costs_to_base_year_formulas (ts : Timescale) (fin : Financials)
    (p t : String) :
    bring_annual_costs_to_base_year ts fin p
      = uniform_series_to_present_value fin.discount_rate (ts.period_length_years p)
        * future_to_present_value fin.discount_rate
            (fin.dollar_year - fin.base_financial_year)
    ∧ bring_timepoint_costs_to_base_year ts fin t
      = bring_annual_costs_to_base_year ts fin (ts.tp_period t)
        * ts.tp_weight_in_year t :=
  ⟨rfl, rfl⟩

/-- C4: `uniform_series_to_present_value(0, n) = n`; for a nonzero rate it
is `(1 - (1+r)^(-n)) / r * (1+r)`; and the zero rate is handled by the
explicit first branch, so the checked-division version never faults with
a division by zero, at any rate. -/
theorem uniform_series_zero_branch_and_formula (dr : ℚ) (t : ℤ) (h : dr ≠ 0) :
    uniform_series_to_present_value 0 t = (t : ℚ)
    ∧ uniform_series_to_present_value dr t
        = (1 - (1 + dr) ^ (-t)) / dr * (1 + dr)
    ∧ ∀ r : ℚ, uniform_series_to_present_value_checked r t
        = some (uniform_series_to_present_value r t) := by
  refine ⟨by simp [uniform_series_to_present_value], ?_, ?_⟩
  · simp [uniform_series_to_present_value, h]
  · intro r
    by_cases hr : r = 0
    · simp [uniform_series_to_present_value_checked,
        uniform_series_to_present_value, hr]
    · simp [uniform_series_to_present_value_checked,
        uniform_series_to_present_value, qdiv_checked, hr]

/-- Witness for C4 at `dr = 7/100`, `t = 10`. -/
theorem uniform_series_zero_branch_and_formula_witness :
    ((7 : ℚ) / 100) ≠ 0
    ∧ (uniform_series_to_present_value 0 10 = ((10 : ℤ) : ℚ)
      ∧ uniform_series_to_present_value (7 / 100) 10
          = (1 - (1 + 7 / 100) ^ (-(10 : ℤ))) / (7 / 100) * (1 + 7 / 100)
      ∧ ∀ r : ℚ, uniform_series_to_present_value_checked r 10
          = some (uniform_series_to_present_value r 10)) :=
  ⟨by norm_num, uniform_series_zero_branch_and_formula (7 / 100) 10 (by norm_num)⟩

/-- C5 (code evaluation): in the code registration is a bare list append
that succeeds for every registry state and every name — there is no
freeze state and no `RegistrationAfterFreeze` error path.  Concretely,
appending a late withdrawal component after `Zone_Energy_Balance` has
been emitted from the registry `["zone_demand_mw"]` succeeds silently,
and the already-emitted constraint (here with every component valued 1)
still equates to `0 = 1`, omitting the late component, whereas the
enlarged registry would emit `0 = 2`: the late registration is silently
under-counted instead of rejected. -/
theorem late_registration_never_fails :
    (∀ entries name, list_register entries name = entries ++ [name])
    ∧ list_register ["zone_demand_mw"] "late_withdrawal"
        = ["zone_demand_mw", "late_withdrawal"]
    ∧ (Zone_Energy_Balance ⟨[], ["zone_demand_mw"]⟩ onePowerComp "Z1" "T1"
        ↔ (0 : ℚ) = 1)
    ∧ (Zone_Energy_Balance ⟨[], list_register ["zone_demand_mw"] "late_withdrawal"⟩
          onePowerComp "Z1" "T1"
        ↔ (0 : ℚ) = 2) := by
  refine ⟨fun _ _ => rfl, rfl, ?_, ?_⟩
  · norm_num [Zone_Energy_Balance, onePowerComp]
  · norm_num [Zone_Energy_Balance, list_register, onePowerComp]

/-- C6: registering demand adds exactly one `zone_demand_mw` entry across
the two candidate withdrawal lists (never both, never neither): when the
distributed-bus list exists the central list is untouched, and when it is
absent the fallback appends to the central list without any fault. -/
theorem zone_demand_registered_exactly_once (m : WithdrawalTargets) :
    ((register_zone_demand m).distCount "zone_demand_mw"
        + (register_zone_demand m).centralCount "zone_demand_mw"
      = m.distCount "zone_demand_mw" + m.centralCount "zone_demand_mw" + 1)
    ∧ (m.Distributed_Power_Withdrawals.isSome = true →
        (register_zone_demand m).Zone_Power_Withdrawals = m.Zone_Power_Withdrawals)
    ∧ (m.Distributed_Power_Withdrawals = none →
        (register_zone_demand m).Distributed_Power_Withdrawals = none
        ∧ (register_zone_demand m).Zone_Power_Withdrawals
            = m.Zone_Power_Withdrawals ++ ["zone_demand_mw"]) := by
  obtain ⟨dist, central⟩ := m
  cases dist with
  | none =>
      refine ⟨?_, ?_, fun _ => ⟨rfl, rfl⟩⟩
      · simp [register_zone_demand, WithdrawalTargets.distCount,
          WithdrawalTargets.centralCount, List.count_append]
      · intro h
        simp at h
  | some l =>
      refine ⟨?_, fun _ => rfl, ?_⟩
      · simp [register_zone_demand, WithdrawalTargets.distCount,
          WithdrawalTargets.centralCount, List.count_append]
        omega
      · intro h
        simp at h

/-- Witness for C6: the central-bus fallback on a model without a
distributed bus and with empty lists. -/
theorem zone_demand_registered_exactly_once_witness :
    ((register_zone_demand ⟨none, []⟩).distCount "zone_demand_mw"
        + (register_zone_demand ⟨none, []⟩).centralCount "zone_demand_mw"
      = (WithdrawalTargets.mk none []).distCount "zone_demand_mw"
          + (WithdrawalTargets.mk none []).centralCount "zone_demand_mw" + 1)
    ∧ ((register_zone_demand ⟨none, []⟩).Distributed_Power_Withdrawals = none
        ∧ (register_zone_demand ⟨none, []⟩).Zone_Power_Withdrawals
            = [] ++ ["zone_demand_mw"]) :=
  ⟨(zone_demand_registered_exactly_once ⟨none, []⟩).1,
   (zone_demand_registered_exactly_once ⟨none, []⟩).2.2 rfl⟩

/-- C7 (code evaluation): the check installed by the code covers only
`base_financial_year` and `discount_rate`, so an input set with
`dollar_year` absent — but the other two present — passes the
`min_data_check` without a `MissingDataError`, contrary to the claim that
each of the three parameters is mandatory through that check. -/
theorem dollar_year_missing_passes_check :
    (fun n => n != "dollar_year") "dollar_year" = false
    ∧ financials_min_data_check (fun n => n != "dollar_year") = Except.ok () :=
  ⟨by decide, rfl⟩

/-- C8: the future-to-present and present-to-future factors are exact
inverses over exact rational arithmetic, for every rate `r ≥ 0` and
horizon `n ≥ 1`. -/
theorem future_present_value_inverse (r : ℚ) (n : ℤ) (hr : 0 ≤ r) (hn : 1 ≤ n) :
    future_to_present_value r n * present_to_future_value r n = 1 := by
  have h1 : (0 : ℚ) < 1 + r := by linarith
  rw [future_to_present_value, present_to_future_value, ← zpow_add₀ (ne_of_gt h1)]
  simp

/-- Witness for C8 at the documented example `r = 7/100`, `n = 10`. -/
theorem future_present_value_inverse_witness :
    (0 : ℚ) ≤ 7 / 100 ∧ (1 : ℤ) ≤ 10
    ∧ future_to_present_value (7 / 100) 10 * present_to_future_value (7 / 100) 10 = 1 :=
  ⟨by norm_num, by norm_num,
   future_present_value_inverse (7 / 100) 10 (by norm_num) (by norm_num)⟩

/-- C9: `zone_total_demand_in_period_mwh[z, p]` is the weighted sum of the
zone's demand over the timepoints of the period, and on the spec's worked
example instance it evaluates to 876000 MWh while
`bring_timepoint_costs_to_base_year[T1]` evaluates to 8760. -/
theorem zone_total_demand_formula_and_example (zone_demand_mw : String → String → ℚ)
    (ts : Timescale) (z p : String) :
    zone_total_demand_in_period_mwh zone_demand_mw ts z p
      = ((ts.TPS_IN_PERIOD p).map (fun t => zone_demand_mw z t * ts.tp_weight t)).sum
    ∧ zone_total_demand_in_period_mwh exampleDemand exampleTimescale "Z1" "P1" = 876000
    ∧ bring_timepoint_costs_to_base_year exampleTimescale exampleFinancials "T1"
        = 8760 := by
  refine ⟨rfl, ?_, ?_⟩
  · norm_num [zone_total_demand_in_period_mwh, exampleDemand, exampleTimescale]
  · norm_num [bring_timepoint_costs_to_base_year, bring_annual_costs_to_base_year,
      uniform_series_to_present_value, future_to_present_value,
      exampleTimescale, exampleFinancials]

/-- C10: the exported `EnergyCostReal_per_MWh` has no guard on its demand
denominator, so it is well-defined exactly when the period's total zone
demand is strictly positive (given the non-negative demand and weight
domains and a nonzero period discount factor); a zero total demand —
which the non-negativity domain of `zone_demand_mw` permits — makes the
computation hit the division by zero (`none`). -/
theorem energy_cost_real_per_mwh_guard (cl : CostLists)
    (tpComp annComp : String → String → ℚ) (ts : Timescale) (fin : Financials)
    (LOAD_ZONES : List String) (zone_demand_mw : String → String → ℚ) (p : String)
    (hd : ∀ z t, 0 ≤ zone_demand_mw z t) (hw : ∀ t, 0 ≤ ts.tp_weight t)
    (hb : bring_annual_costs_to_base_year ts fin p ≠ 0) :
    (EnergyCostReal_per_MWh cl tpComp annComp ts fin LOAD_ZONES zone_demand_mw p).isSome
      ↔ 0 < total_zone_demand_in_period LOAD_ZONES zone_demand_mw ts p := by
  have hnn : 0 ≤ total_zone_demand_in_period LOAD_ZONES zone_demand_mw ts p := by
    apply List.sum_nonneg
    intro x hx
    simp only [List.mem_map] at hx
    obtain ⟨z, _, rfl⟩ := hx
    apply List.sum_nonneg
    intro y hy
    simp only [List.mem_map] at hy
    obtain ⟨t, _, rfl⟩ := hy
    exact mul_nonneg (hd z t) (hw t)
  unfold EnergyCostReal_per_MWh
  rw [qdiv_checked, if_neg hb]
  by_cases h0 : total_zone_demand_in_period LOAD_ZONES zone_demand_mw ts p = 0
  · simp [qdiv_checked, h0]
  · simp [qdiv_checked, h0, lt_of_le_of_ne hnn (Ne.symm h0)]

/-- Witness for C10: the all-zero demand instance — permitted by the
non-negativity domain — makes the export division undefined
(`isSome` is equivalent to the false statement `0 < 0`). -/
theorem energy_cost_real_per_mwh_guard_witness :
    (∀ z t, (0 : ℚ) ≤ zeroDemand z t)
    ∧ (∀ t, (0 : ℚ) ≤ exampleTimescale.tp_weight t)
    ∧ bring_annual_costs_to_base_year exampleTimescale exampleFinancials "P1" ≠ 0
    ∧ ((EnergyCostReal_per_MWh emptyCostLists zeroComp zeroComp exampleTimescale
          exampleFinancials ["Z1"] zeroDemand "P1").isSome
        ↔ 0 < total_zone_demand_in_period ["Z1"] zeroDemand exampleTimescale "P1") :=
  ⟨fun _ _ => le_refl 0,
   fun _ => by norm_num [exampleTimescale],
   by norm_num [bring_annual_costs_to_base_year, uniform_series_to_present_value,
     future_to_present_value, exampleTimescale, exampleFinancials],
   energy_cost_real_per_mwh_guard emptyCostLists zeroComp zeroComp exampleTimescale
     exampleFinancials ["Z1"] zeroDemand "P1"
     (fun _ _ => le_refl 0)
     (fun _ => by norm_num [exampleTimescale])
     (by norm_num [bring_annual_costs_to_base_year, uniform_series_to_present_value,
       future_to_present_value, exampleTimescale, exampleFinancials])⟩

end MatchModel
